import Mathlib

/-!
Verification of the `beer` variational-Bayes toolkit core against its
natural-language specification.  The Python sources are shallowly embedded:
tensors become functions `Fin n → ℝ`, stateful attribute updates become
explicit state passing, and fallible code returns `Except`/`Option`.
Each definition mirrors one function of the source.
-/

namespace beer

/-! ### `utils.logsumexp`

Source `beer/utils.py`: `tmax = max(tensor, dim)`;
`retval = tmax + (tensor - tmax).exp().sum(dim).log()`. -/

/-- Embedding of `beer.utils.logsumexp` along one axis of length `n + 1`
(the reduced axis of a tensor is never empty). -/
noncomputable def logsumexp {n : ℕ} (v : Fin (n + 1) → ℝ) : ℝ :=
  let tmax := Finset.univ.sup' Finset.univ_nonempty v
  tmax + Real.log (∑ i, Real.exp (v i - tmax))

/-! ### `expfamilyprior.py` -/

/-- Embedding of `beer.expfamilyprior._bregman_divergence`:
`f_val1 - f_val2 - grad_f_val2 @ (val1 - val2)`. -/
def bregman_divergence {n : ℕ} (f_val1 f_val2 : ℝ)
    (grad_f_val2 val1 val2 : Fin n → ℝ) : ℝ :=
  f_val1 - f_val2 - ∑ i, grad_f_val2 i * (val1 i - val2 i)

/-- A tensor carrying an optional gradient buffer, as consumed by the
`ExpFamilyPrior.natural_hparams` setter. -/
structure GradTensor (n : ℕ) where
  data : Fin n → ℝ
  grad : Option (Fin n → ℝ)

/-- The two fields written by the `natural_hparams` setter:
`_expected_sufficient_statistics` and `_natural_hparams`. -/
structure PriorState (n : ℕ) where
  expected_sufficient_statistics : Fin n → ℝ
  natural_hparams : Fin n → ℝ

/-- Embedding of the `ExpFamilyPrior.natural_hparams` setter
(`beer/expfamilyprior.py`, lines 95-102).  `gradOf` is the external
differentiation collaborator: `ta.backward(log_norm_value)` writes the
gradient of `log_norm` at `value` into `value.grad`.  When `value.grad`
is already populated the source executes `value.grad.zero_()()`, calling
the tensor returned by the in-place zeroing as a function, which raises
a `TypeError`; the embedding returns an error in that branch. -/
def set_natural_hparams {n : ℕ}
    (gradOf : ((Fin n → ℝ) → ℝ) → (Fin n → ℝ) → (Fin n → ℝ))
    (log_norm : (Fin n → ℝ) → ℝ) (value : GradTensor n) :
    Except String (PriorState n) :=
  match value.grad with
  | some _ => .error "TypeError: Tensor object is not callable"
  | none => .ok ⟨gradOf log_norm value.data, value.data⟩

/-- Embedding of `DirichletPrior.split_sufficient_statistics`
(`beer/expfamilyprior.py`, lines 165-178): the identity function, as
the Dirichlet family has a single group of sufficient statistics. -/
def DirichletPrior.split_sufficient_statistics (s_stats : List ℝ) : List ℝ :=
  s_stats

/-- Natural-parameter blocks computed by the `NormalGammaPrior`
construction helper before the (commented-out) object construction. -/
structure NormalGammaNaturalParams (d : ℕ) where
  np1 : Fin d → ℝ
  np2 : Fin d → ℝ
  np3 : Fin d → ℝ
  np4 : Fin d → ℝ

/-- Embedding of the `NormalGammaPrior` construction helper
(`beer/expfamilyprior.py`, lines 292-314).  It computes the natural
parameters but its final statement
`return ExpFamilyPrior(natural_params, _normalgamma_log_norm)` is
commented out in the source, so the function returns `None`. -/
def NormalGammaPrior {d : ℕ} (mean precision : Fin d → ℝ)
    (prior_counts : ℝ) : Option (NormalGammaNaturalParams d) :=
  let n_mean := mean
  let n_precision := fun _ : Fin d => prior_counts
  let g_shapes := fun i => precision i * prior_counts
  let g_rates := fun _ : Fin d => prior_counts
  let natural_params : NormalGammaNaturalParams d :=
    ⟨fun i => n_precision i * (n_mean i) ^ 2 + 2 * g_rates i,
     fun i => n_precision i * n_mean i,
     n_precision,
     fun i => 2 * g_shapes i - 1⟩
  none

/-- Embedding of the `GammaPrior` construction helper
(`beer/expfamilyprior.py`, lines 540-553).  It computes the natural
parameters `[shape - 1, -rate]` but its final statement
`return ExpFamilyPrior(natural_params, _gamma_log_norm)` is commented
out in the source, so the function returns `None`. -/
def GammaPrior (shape rate : ℝ) : Option (List ℝ) :=
  let natural_params := [shape - 1, -rate]
  none

/-- Embedding of `_normal_iso_split_nparams`
(`beer/expfamilyprior.py`, lines 456-458).  It extracts
`np1 = natural_params[0]` and `np2 = natural_params[1:]` but its
statement `return np1, np2` is commented out in the source, so the
function returns `None`. -/
def normal_iso_split_nparams {n : ℕ} (natural_params : Fin (n + 1) → ℝ) :
    Option (ℝ × (Fin n → ℝ)) :=
  let np1 := natural_params 0
  let np2 := fun i : Fin n => natural_params i.succ
  none

/-- The canonical flat layout of the isotropic-covariance Normal family:
a scalar block followed by a `n`-vector block. -/
def normal_iso_concat {n : ℕ} (np1 : ℝ) (np2 : Fin n → ℝ) : Fin (n + 1) → ℝ :=
  Fin.cons np1 np2

/-! ### `MixtureSet` (`beer/models/mixtureset.py`)

`num_mix` categorical mixtures share one flat pool of
`num_mix * num_comp` component models.  `num_comp` is written `C + 1`
so that the reduced component axis is never empty. -/

/-- Embedding of `MixtureSet.forward` (lines 56-72).  The per-component
expected log-likelihoods (already reshaped to `(batch, num_mix, num_comp)`)
are combined with the expected log-weights; responsibilities are the
exponential of the log-sum-exp-normalized rows and are cached for
`accumulate`.  The `.detach()` on the normalizer does not change the
value, only the gradient path, so the embedding drops it.  Returns the
per-sample, per-mixture lower bound together with the cached
responsibilities. -/
noncomputable def MixtureSet.forward {B M C : ℕ}
    (log_weights : Fin M → Fin (C + 1) → ℝ)
    (pc_exp_llhs : Fin B → Fin M → Fin (C + 1) → ℝ) :
    (Fin B → Fin M → ℝ) × (Fin B → Fin M → Fin (C + 1) → ℝ) :=
  let w_pc_exp_llhs := fun s m c => pc_exp_llhs s m c + log_weights m c
  let log_norm := fun s m => logsumexp (w_pc_exp_llhs s m)
  let log_resps := fun s m c => w_pc_exp_llhs s m c - log_norm s m
  let resps := fun s m c => Real.exp (log_resps s m c)
  let local_kl_div := fun s m => ∑ c, resps s m c * (log_resps s m c - log_weights m c)
  let exp_llh := fun s m => ∑ c, pc_exp_llhs s m c * resps s m c
  (fun s m => exp_llh s m - local_kl_div s m, resps)

/-- Mixture index of a flat `(num_mix * num_comp)` pool position:
`j / num_comp`, as produced by reshaping a contiguous
`(num_mix, num_comp)` tensor to one axis. -/
def mixIdx {M C : ℕ} (j : Fin (M * (C + 1))) : Fin M :=
  ⟨j / (C + 1), by
    have h := j.isLt
    exact (Nat.div_lt_iff_lt_mul (Nat.succ_pos C)).mpr h⟩

/-- Component index of a flat `(num_mix * num_comp)` pool position:
`j % num_comp`. -/
def compIdx {M C : ℕ} (j : Fin (M * (C + 1))) : Fin (C + 1) :=
  ⟨j % (C + 1), Nat.mod_lt _ (Nat.succ_pos C)⟩

/-- Result of `MixtureSet.accumulate`: the dictionary mapping each
mixture weight parameter to its accumulated Dirichlet statistics,
merged with the statistics returned by the shared component set. -/
structure MixAccStats (M C : ℕ) (γ : Type) where
  weight_stats : Fin M → Fin C → ℝ
  child_stats : γ

/-- Embedding of `MixtureSet.accumulate` (lines 74-84).  `resps` is the
cache written by `forward`; `child_accumulate` is the shared component
set's own `accumulate`, receiving the reshaped joint responsibilities as
its `parent_msg`.  A `None` parent message raises `ValueError`. -/
def MixtureSet.accumulate {B M C : ℕ} {γ : Type}
    (resps : Fin B → Fin M → Fin (C + 1) → ℝ)
    (parent_msg : Option (Fin B → Fin M → ℝ))
    (child_accumulate : (Fin B → Fin (M * (C + 1)) → ℝ) → γ) :
    Except String (MixAccStats M (C + 1) γ) :=
  match parent_msg with
  | none => .error "parent_msg should not be None"
  | some pm =>
    let joint_resps := fun s m c => resps s m c * pm s m
    let sum_joint_resps := fun m c => ∑ s, joint_resps s m c
    let reshaped := fun s (j : Fin (M * (C + 1))) =>
      joint_resps s (mixIdx j) (compIdx j)
    .ok ⟨sum_joint_resps, child_accumulate reshaped⟩

/-- The state read by `MixtureSet.__len__` and `MixtureSet.__getitem__`:
the expected log-weights of every mixture (each mixture weight
parameter's posterior expected sufficient statistics) and the shared
flat pool of component models. -/
structure MixtureSetState (M C : ℕ) (T : Type) where
  expected_log_weights : Fin M → Fin C → ℝ
  modelset : Fin (M * C) → T

/-- Flat pool position of component `c` of mixture `k`:
`k * num_comp + c`. -/
def flatIdx {M C : ℕ} (k : Fin M) (c : Fin C) : Fin (M * C) :=
  ⟨k * C + c, by
    have hk : (k : ℕ) + 1 ≤ M := k.isLt
    calc (k : ℕ) * C + c < (k : ℕ) * C + C := by
          exact Nat.add_lt_add_left c.isLt _
      _ = ((k : ℕ) + 1) * C := by ring
      _ ≤ M * C := Nat.mul_le_mul_right C hk⟩

/-- Embedding of `MixtureSet.__len__` (lines 94-95): returns `num_mix`. -/
def MixtureSet.length {M C : ℕ} {T : Type} (ms : MixtureSetState M C T) : ℕ :=
  M

/-- Embedding of `MixtureSet.__getitem__` (lines 86-92):
`weights = exp(log_weights)` reshaped to `(num_mix, num_comp)`; the
returned `MixtureSetElement` carries `weights[key] / weights.sum()`
(note: `weights.sum()` sums over ALL mixtures and components) and the
slice of the shared pool from `key * num_comp` to
`(key + 1) * num_comp`. -/
noncomputable def MixtureSet.getitem {M C : ℕ} {T : Type}
    (ms : MixtureSetState M C T) (key : Fin M) :
    (Fin C → ℝ) × (Fin C → T) :=
  let weights := fun m c => Real.exp (ms.expected_log_weights m c)
  let total := ∑ m, ∑ c, weights m c
  (fun c => weights key c / total,
   fun c => ms.modelset (flatIdx key c))

/-! ### `VAE` (`beer/models/vae.py`)

The encoder, decoder, the latent Bayesian model and the Normal sampler
are external collaborators (opaque differentiable functions per the
specification); the embedding takes them as function arguments.  The
minibatch has `N` samples of observed dimension `E`; the latent space
has dimension `D`; `nsamples = S + 1` Monte Carlo draws are used. -/

/-- The four natural-parameter blocks of a diagonal-covariance Normal in
the order concatenated by `_normal_diag_natural_params`; the fourth
block is the appended (negative) log-normalizer term. -/
structure DiagBlocks (D : ℕ) where
  f1 : Fin D → ℝ
  f2 : Fin D → ℝ
  f3 : Fin D → ℝ
  f4 : Fin D → ℝ

/-- Blockwise difference of two concatenated block vectors. -/
def blocksSub {D : ℕ} (a b : DiagBlocks D) : DiagBlocks D :=
  ⟨fun i => a.f1 i - b.f1 i, fun i => a.f2 i - b.f2 i,
   fun i => a.f3 i - b.f3 i, fun i => a.f4 i - b.f4 i⟩

/-- Sum over all concatenated dimensions of the elementwise product of
two block vectors (`(x * y).sum(dim=-1)` on the concatenation). -/
def blocksDot {D : ℕ} (a b : DiagBlocks D) : ℝ :=
  (∑ i, a.f1 i * b.f1 i) + (∑ i, a.f2 i * b.f2 i) +
    (∑ i, a.f3 i * b.f3 i) + (∑ i, a.f4 i * b.f4 i)

/-- Embedding of `_normal_diag_natural_params` (`beer/models/vae.py`,
lines 16-29): `[-1/(2 var), mean/var, -mean^2/(2 var), -.5 log var]`. -/
noncomputable def normal_diag_natural_params {D : ℕ} (mean var : Fin D → ℝ) :
    DiagBlocks D :=
  ⟨fun i => -1 / (2 * var i),
   fun i => mean i / var i,
   fun i => -(mean i ^ 2) / (2 * var i),
   fun i => -(1 / 2) * Real.log (var i)⟩

/-- Modelled from the spec:
`NormalDiagonalCovariance.sufficient_statistics_from_mean_var` lives in
`beer/models/normal.py`, which is not among the provided sources.  Per
the specification the encoder posterior is a diagonal-covariance
Normal whose sufficient statistics pair with the four natural-parameter
blocks of `_normal_diag_natural_params`, i.e. `(x^2, x, 1, 1)` per
dimension; their expectation under `N(mean, var)` is
`(mean^2 + var, mean, 1, 1)`. -/
def sufficient_statistics_from_mean_var {D : ℕ} (mean var : Fin D → ℝ) :
    DiagBlocks D :=
  ⟨fun i => mean i ^ 2 + var i, mean, fun _ => 1, fun _ => 1⟩

/-- Embedding of `_log_likelihood` (`beer/models/vae.py`, lines 32-37):
the closed-form diagonal Gaussian log-density with the
`.5 * D * log(2 pi)` normalizer term. -/
noncomputable def log_likelihood {E : ℕ} (data means variances : Fin E → ℝ) : ℝ :=
  (∑ d, (-(0.5 * (data d - means d) ^ 2 / variances d)
          - 0.5 * Real.log (variances d)))
    - 0.5 * E * Real.log (2 * Real.pi)

/-- Embedding of `VAE._expected_llh` (lines 75-82) after the decoder
call: the Monte Carlo average over the `nsamples` axis (only) of the
per-sample Gaussian log-density. -/
noncomputable def VAE.expected_llh {S N E : ℕ} (data : Fin N → Fin E → ℝ)
    (dec_means dec_variances : Fin (S + 1) → Fin N → Fin E → ℝ) :
    Fin N → ℝ :=
  fun i => (∑ s, log_likelihood (data i) (dec_means s i) (dec_variances s i))
    / (S + 1)

/-- Embedding of `VAE._compute_local_kl_div` (lines 67-73): the cached
per-sample KL divergence
`((nparams - exp_np_params) * exp_s_stats).sum(dim=-1)`. -/
noncomputable def VAE.compute_local_kl_div {N D : ℕ}
    (means variances : Fin N → Fin D → ℝ)
    (exp_np_params : Fin N → DiagBlocks D) : Fin N → ℝ :=
  fun i => blocksDot
    (blocksSub (normal_diag_natural_params (means i) (variances i))
      (exp_np_params i))
    (sufficient_statistics_from_mean_var (means i) (variances i))

/-- Embedding of `VAE.forward` (lines 128-136).  `encoder` maps the data
to the posterior means and variances; `expected_natural_params` is the
latent model's estimate (returning also the latent statistics cached
for `accumulate`); `sample_from_normals` stands for the external Normal
sampler; `decoder` maps the drawn samples to reconstruction means and
variances.  Returns the per-sample value returned by `forward` together
with the cache written during the call (the local KL divergence and the
latent statistics). -/
noncomputable def VAE.forward {N D E S : ℕ} {L : Type}
    (encoder : (Fin N → Fin E → ℝ) → (Fin N → Fin D → ℝ) × (Fin N → Fin D → ℝ))
    (expected_natural_params : (Fin N → Fin D → ℝ) → (Fin N → Fin D → ℝ) →
      (Fin N → DiagBlocks D) × L)
    (sample_from_normals : (Fin N → Fin D → ℝ) → (Fin N → Fin D → ℝ) →
      Fin (S + 1) → Fin N → Fin D → ℝ)
    (decoder : (Fin (S + 1) → Fin N → Fin D → ℝ) →
      (Fin (S + 1) → Fin N → Fin E → ℝ) × (Fin (S + 1) → Fin N → Fin E → ℝ))
    (data : Fin N → Fin E → ℝ) :
    (Fin N → ℝ) × ((Fin N → ℝ) × L) :=
  let mv := encoder data
  let prior := expected_natural_params mv.1 mv.2
  let kl_divergence := VAE.compute_local_kl_div mv.1 mv.2 prior.1
  let samples := sample_from_normals mv.1 mv.2
  let dec := decoder samples
  (VAE.expected_llh data dec.1 dec.2, (kl_divergence, prior.2))

end beer

/-! ## Theorems -/

/-- The exponentials of the log-sum-exp-normalized values sum to one:
the core numeric fact behind the responsibility normalization. -/
lemma sum_exp_sub_logsumexp {n : ℕ} (v : Fin (n + 1) → ℝ) :
    ∑ c, Real.exp (v c - beer.logsumexp v) = 1 := by
  have hS : 0 < ∑ i, Real.exp (v i - Finset.univ.sup' Finset.univ_nonempty v) :=
    Finset.sum_pos (fun i _ => Real.exp_pos _) Finset.univ_nonempty
  unfold beer.logsumexp
  have hrw : ∀ c : Fin (n + 1),
      Real.exp (v c - (Finset.univ.sup' Finset.univ_nonempty v +
        Real.log (∑ i, Real.exp (v i - Finset.univ.sup' Finset.univ_nonempty v)))) =
      Real.exp (v c - Finset.univ.sup' Finset.univ_nonempty v) /
        (∑ i, Real.exp (v i - Finset.univ.sup' Finset.univ_nonempty v)) := by
    intro c
    rw [sub_add_eq_sub_sub, Real.exp_sub, Real.exp_log hS]
  simp only [hrw]
  rw [← Finset.sum_div, div_self (ne_of_gt hS)]

/-- C1: the prior-family construction helpers compute the family's
natural parameters but return `None`, because their final
object-construction statements are commented out in the source: the
code contradicts the claim (and its own docstrings and tests), which
require a usable prior to be returned.  Evaluated here on every input,
in particular the valid hyperparameters used by the repository's own
test suite. -/
theorem prior_constructors_return_none :
    (∀ (mean precision : Fin 2 → ℝ) (prior_counts : ℝ),
      beer.NormalGammaPrior mean precision prior_counts = none) ∧
    (∀ shape rate : ℝ, beer.GammaPrior shape rate = none) := by
  exact ⟨fun _ _ _ => rfl, fun _ _ => rfl⟩

/-- C2: the `p` against `p` case of the Bregman-divergence formula for
`kl_div` is zero: `_bregman_divergence` with equal function values and
equal natural parameters vanishes.  (The surrounding `kl_div` wrapper
is itself broken in the source: it passes the unevaluated bound methods
`model2.log_norm`/`model1.log_norm` where `_bregman_divergence` expects
evaluated scalars, and reads a nonexistent attribute `natural_params`,
so any call raises; the claim states the intended value.) -/
theorem bregman_divergence_self_eq_zero {n : ℕ}
    (log_norm_val : ℝ) (grad : Fin n → ℝ) (η : Fin n → ℝ) :
    beer.bregman_divergence log_norm_val log_norm_val grad η η = 0 := by
  simp [beer.bregman_divergence]

/-- C3: a successful assignment to `natural_hparams` (one where the
incoming tensor has no pre-existing gradient buffer) atomically sets
both fields from the assigned value: the stored expected sufficient
statistics are exactly the gradient of the family's `log_norm` at the
newly assigned natural parameters. -/
theorem set_natural_hparams_consistent {n : ℕ}
    (gradOf : ((Fin n → ℝ) → ℝ) → (Fin n → ℝ) → (Fin n → ℝ))
    (log_norm : (Fin n → ℝ) → ℝ) (value : beer.GradTensor n)
    (h : value.grad = none) :
    beer.set_natural_hparams gradOf log_norm value =
      .ok ⟨gradOf log_norm value.data, value.data⟩ := by
  unfold beer.set_natural_hparams
  rw [h]

/-- Witness for C3 at a concrete input: a 1-dimensional tensor with
value 2 and no gradient buffer, an arbitrary concrete family. -/
theorem set_natural_hparams_consistent_witness :
    beer.set_natural_hparams (n := 1) (fun _ v => v) (fun _ => 0)
      ⟨fun _ => 2, none⟩ = .ok ⟨fun _ => 2, fun _ => 2⟩ :=
  set_natural_hparams_consistent (fun _ v => v) (fun _ => 0)
    ⟨fun _ => 2, none⟩ rfl

/-- C5: after `MixtureSet.forward`, for every sample `s` and mixture `m`
the cached responsibilities sum to 1 over the component axis, because
each row is normalized by the log-sum-exp over components (the sum is
exactly 1 in real arithmetic, hence within the 1e-5 tolerance). -/
theorem mixtureset_resps_sum_to_one {B M C : ℕ}
    (log_weights : Fin M → Fin (C + 1) → ℝ)
    (pc_exp_llhs : Fin B → Fin M → Fin (C + 1) → ℝ)
    (s : Fin B) (m : Fin M) :
    ∑ c, (beer.MixtureSet.forward log_weights pc_exp_llhs).2 s m c = 1 := by
  unfold beer.MixtureSet.forward
  exact sum_exp_sub_logsumexp (fun c => pc_exp_llhs s m c + log_weights m c)

/-- C6: with a non-null parent message, `MixtureSet.accumulate` maps
each mixture weight parameter to the batch-summed, parent-weighted
responsibilities `fun c => ∑ s, parent_msg s m * resps s m c`, and
invokes the shared component set's `accumulate` with the joint
responsibilities reshaped to `(batch, num_mix * num_comp)`; both
mappings are merged in the returned value. -/
theorem mixtureset_accumulate_spec {B M C : ℕ} {γ : Type}
    (resps : Fin B → Fin M → Fin (C + 1) → ℝ)
    (pm : Fin B → Fin M → ℝ)
    (child_accumulate : (Fin B → Fin (M * (C + 1)) → ℝ) → γ) :
    beer.MixtureSet.accumulate resps (some pm) child_accumulate =
      .ok ⟨fun m c => ∑ s, pm s m * resps s m c,
           child_accumulate (fun s j =>
             pm s (beer.mixIdx j) * resps s (beer.mixIdx j) (beer.compIdx j))⟩ := by
  unfold beer.MixtureSet.accumulate
  have h1 : (fun m c => ∑ s, resps s m c * pm s m) =
      (fun (m : Fin M) (c : Fin (C + 1)) => ∑ s, pm s m * resps s m c) := by
    funext m c
    exact Finset.sum_congr rfl (fun s _ => mul_comm _ _)
  have h2 : (fun s (j : Fin (M * (C + 1))) =>
      resps s (beer.mixIdx j) (beer.compIdx j) * pm s (beer.mixIdx j)) =
      (fun s (j : Fin (M * (C + 1))) =>
        pm s (beer.mixIdx j) * resps s (beer.mixIdx j) (beer.compIdx j)) := by
    funext s j
    exact mul_comm _ _
  simp only [h1, h2]

/-- C8: calling `MixtureSet.accumulate` with a `None` parent message
fails with a `ValueError` and produces no accumulation mapping. -/
theorem mixtureset_accumulate_none_fails {B M C : ℕ} {γ : Type}
    (resps : Fin B → Fin M → Fin (C + 1) → ℝ)
    (child_accumulate : (Fin B → Fin (M * (C + 1)) → ℝ) → γ) :
    beer.MixtureSet.accumulate resps none child_accumulate =
      .error "parent_msg should not be None" := rfl

/-- C9: `split_sufficient_statistics` round-trips on the Dirichlet
family (where it is the identity), but for the isotropic-covariance
Normal family the splitting helper `_normal_iso_split_nparams` returns
`None` on the family's canonical concatenated layout — its return
statement is commented out in the source — so concatenate-then-split is
not the identity for every family, contradicting the claim. -/
theorem split_sufficient_statistics_roundtrip :
    (∀ s_stats : List ℝ,
      beer.DirichletPrior.split_sufficient_statistics s_stats = s_stats) ∧
    (∀ (np1 : ℝ) (np2 : Fin 2 → ℝ),
      beer.normal_iso_split_nparams (beer.normal_iso_concat np1 np2) = none) := by
  exact ⟨fun _ => rfl, fun _ _ => rfl⟩

/-- C10: assigning to `natural_hparams` a tensor whose gradient buffer
is already populated raises a `TypeError` instead of completing the
update, because the setter executes `value.grad.zero_()()`, calling the
tensor returned by the in-place zeroing as if it were a function. -/
theorem set_natural_hparams_populated_grad_fails {n : ℕ}
    (gradOf : ((Fin n → ℝ) → ℝ) → (Fin n → ℝ) → (Fin n → ℝ))
    (log_norm : (Fin n → ℝ) → ℝ) (value : beer.GradTensor n)
    (g : Fin n → ℝ) (h : value.grad = some g) :
    beer.set_natural_hparams gradOf log_norm value =
      .error "TypeError: Tensor object is not callable" := by
  unfold beer.set_natural_hparams
  rw [h]

/-- Witness for C10 at a concrete input: a 1-dimensional tensor whose
gradient buffer holds the value 7. -/
theorem set_natural_hparams_populated_grad_fails_witness :
    beer.set_natural_hparams (n := 1) (fun _ v => v) (fun _ => 0)
      ⟨fun _ => 2, some (fun _ => 7)⟩ =
      .error "TypeError: Tensor object is not callable" :=
  set_natural_hparams_populated_grad_fails (fun _ v => v) (fun _ => 0)
    ⟨fun _ => 2, some (fun _ => 7)⟩ (fun _ => 7) rfl

/-- C7 counterexample: for a MixtureSet with `num_mix = 2` mixtures of
`num_comp = 1` component and all expected log-weights zero, the weight
vector returned by `MixtureSet[0]` sums to 1/2, not 1: the source
normalizes `weights[key]` by `weights.sum()`, the total over ALL
mixtures and components, so the claim "a weight vector whose entries
sum to 1" is false. -/
theorem mixtureset_getitem_weights_counterexample :
    ¬ (∑ c, (beer.MixtureSet.getitem (M := 2) (C := 1) (T := Unit)
        ⟨fun _ _ => 0, fun _ => ()⟩ 0).1 c = 1) := by
  unfold beer.MixtureSet.getitem
  simp [Real.exp_zero, Fin.sum_univ_two]

/-- C7 (amended): `MixtureSet.__len__()` equals `num_mix`, and for every
index `k`, `MixtureSet[k]` returns exactly `num_comp` sub-models — the
slice of the shared pool from `k * num_comp` to `(k+1) * num_comp` —
and the weight vector `exp(expected_log_weights[k]) / total`, whose
entries sum to mixture `k`'s share of the grand total
`∑ exp(expected_log_weights)` over all mixtures and components (which
equals 1 only when that share is the whole total, e.g. `num_mix = 1`). -/
theorem mixtureset_len_getitem_spec {M C : ℕ} {T : Type}
    (ms : beer.MixtureSetState M C T) (k : Fin M) :
    beer.MixtureSet.length ms = M ∧
    (∀ c, (beer.MixtureSet.getitem ms k).2 c = ms.modelset (beer.flatIdx k c)) ∧
    (∑ c, (beer.MixtureSet.getitem ms k).1 c =
      (∑ c, Real.exp (ms.expected_log_weights k c)) /
        (∑ m, ∑ c, Real.exp (ms.expected_log_weights m c))) := by
  refine ⟨rfl, fun c => rfl, ?_⟩
  unfold beer.MixtureSet.getitem
  rw [← Finset.sum_div]

/-- C4 counterexample: a VAE over one 1-dimensional data point with one
Monte Carlo sample, a constant encoder emitting `N(0, 1)`, a latent
model whose expected natural parameters are all zero, and a constant
decoder emitting `N(0, 1)`.  The cached local KL divergence is `-1/2`,
yet `forward` returns the Monte Carlo expected log-likelihood alone, so
its return value differs from "expected log-likelihood minus cached
local KL": the claim is false. -/
theorem vae_forward_counterexample :
    ¬ ((beer.VAE.forward (N := 1) (D := 1) (E := 1) (S := 0) (L := Unit)
          (fun _ => (fun _ _ => 0, fun _ _ => 1))
          (fun _ _ => (fun _ => ⟨fun _ => 0, fun _ => 0, fun _ => 0, fun _ => 0⟩, ()))
          (fun _ _ _ _ _ => 0)
          (fun _ => (fun _ _ _ => 0, fun _ _ _ => 1))
          (fun _ _ => 0)).1 0 =
        beer.VAE.expected_llh (S := 0) (N := 1) (E := 1) (fun _ _ => 0)
          (fun _ _ _ => 0) (fun _ _ _ => 1) 0 -
        (beer.VAE.forward (N := 1) (D := 1) (E := 1) (S := 0) (L := Unit)
          (fun _ => (fun _ _ => 0, fun _ _ => 1))
          (fun _ _ => (fun _ => ⟨fun _ => 0, fun _ => 0, fun _ => 0, fun _ => 0⟩, ()))
          (fun _ _ _ _ _ => 0)
          (fun _ => (fun _ _ _ => 0, fun _ _ _ => 1))
          (fun _ _ => 0)).2.1 0) := by
  intro h
  have hllh : (beer.VAE.forward (N := 1) (D := 1) (E := 1) (S := 0) (L := Unit)
      (fun _ => (fun _ _ => 0, fun _ _ => 1))
      (fun _ _ => (fun _ => ⟨fun _ => 0, fun _ => 0, fun _ => 0, fun _ => 0⟩, ()))
      (fun _ _ _ _ _ => 0)
      (fun _ => (fun _ _ _ => 0, fun _ _ _ => 1))
      (fun _ _ => 0)).1 0 =
      beer.VAE.expected_llh (S := 0) (N := 1) (E := 1) (fun _ _ => 0)
        (fun _ _ _ => 0) (fun _ _ _ => 1) 0 := rfl
  have hkl : (beer.VAE.forward (N := 1) (D := 1) (E := 1) (S := 0) (L := Unit)
      (fun _ => (fun _ _ => 0, fun _ _ => 1))
      (fun _ _ => (fun _ => ⟨fun _ => 0, fun _ => 0, fun _ => 0, fun _ => 0⟩, ()))
      (fun _ _ _ _ _ => 0)
      (fun _ => (fun _ _ _ => 0, fun _ _ _ => 1))
      (fun _ _ => 0)).2.1 0 = -(1 / 2 : ℝ) := by
    show beer.VAE.compute_local_kl_div (N := 1) (D := 1) (fun _ _ => 0)
      (fun _ _ => 1)
      (fun _ => ⟨fun _ => 0, fun _ => 0, fun _ => 0, fun _ => 0⟩) 0 = -(1 / 2 : ℝ)
    unfold beer.VAE.compute_local_kl_div beer.blocksDot beer.blocksSub
      beer.normal_diag_natural_params beer.sufficient_statistics_from_mean_var
    simp [Real.log_one]
    norm_num
  rw [hllh, hkl] at h
  linarith

/-- C4 (amended): `VAE.forward` returns, per sample, the Monte Carlo
expected log-likelihood of the data under the decoder alone; the local
KL divergence between the encoder posterior and the latent-model-implied
prior — computed as the sum over natural-parameter dimensions of
(posterior natural parameters minus prior expected natural parameters)
times the posterior expected sufficient statistics — is written to the
call cache (and exposed via `local_kl_div_posterior_prior`), not
subtracted from the returned value. -/
theorem vae_forward_spec {N D E S : ℕ} {L : Type}
    (encoder : (Fin N → Fin E → ℝ) → (Fin N → Fin D → ℝ) × (Fin N → Fin D → ℝ))
    (expected_natural_params : (Fin N → Fin D → ℝ) → (Fin N → Fin D → ℝ) →
      (Fin N → beer.DiagBlocks D) × L)
    (sample_from_normals : (Fin N → Fin D → ℝ) → (Fin N → Fin D → ℝ) →
      Fin (S + 1) → Fin N → Fin D → ℝ)
    (decoder : (Fin (S + 1) → Fin N → Fin D → ℝ) →
      (Fin (S + 1) → Fin N → Fin E → ℝ) × (Fin (S + 1) → Fin N → Fin E → ℝ))
    (data : Fin N → Fin E → ℝ) :
    (beer.VAE.forward encoder expected_natural_params sample_from_normals
        decoder data).1 =
      beer.VAE.expected_llh data
        (decoder (sample_from_normals (encoder data).1 (encoder data).2)).1
        (decoder (sample_from_normals (encoder data).1 (encoder data).2)).2 ∧
    (beer.VAE.forward encoder expected_natural_params sample_from_normals
        decoder data).2.1 = fun i =>
      beer.blocksDot
        (beer.blocksSub
          (beer.normal_diag_natural_params ((encoder data).1 i) ((encoder data).2 i))
          ((expected_natural_params (encoder data).1 (encoder data).2).1 i))
        (beer.sufficient_statistics_from_mean_var ((encoder data).1 i)
          ((encoder data).2 i)) :=
  ⟨rfl, rfl⟩
